import Mathlib

/-
Verification development for the network-steering subsystem
(src/ap/net_steering.c).  The definitions below are a shallow embedding
of the C source: the per-client steering state machine, the timer and
score bookkeeping on a client entry, the TLV codec, and the receive
paths.  Machine integers are modelled as Nat with explicit reductions
modulo 2^w where the C code truncates.
-/

namespace NetSteering

/-- Mac models a 6-byte MAC address (u8 addr[ETH_ALEN]). -/
structure Mac where
  b0 : Nat
  b1 : Nat
  b2 : Nat
  b3 : Nat
  b4 : Nat
  b5 : Nat
deriving DecidableEq

/-- Mac.bytes lists the six bytes in wire order. -/
def Mac.bytes (m : Mac) : List Nat := [m.b0, m.b1, m.b2, m.b3, m.b4, m.b5]

/-- zeroMac models an os_memset-cleared MAC field. -/
def zeroMac : Mac := ⟨0, 0, 0, 0, 0, 0⟩

/-- max_score mirrors `static const u16 max_score = -1`, i.e. 0xFFFF. -/
def max_score : Nat := 65535

/-- OsTime models struct os_time with seconds and microseconds. -/
structure OsTime where
  sec : Int
  usec : Int
deriving DecidableEq

/-- os_time_sub mirrors os_time_sub from utils/os.h: component-wise
subtraction with a borrow when the microsecond part goes negative. -/
def os_time_sub (a b : OsTime) : OsTime :=
  let s := a.sec - b.sec
  let u := a.usec - b.usec
  if u < 0 then ⟨s - 1, u + 1000000⟩ else ⟨s, u⟩

/-- os_time_before mirrors os_time_before from utils/os.h. -/
def os_time_before (a b : OsTime) : Bool :=
  decide (a.sec < b.sec) || (decide (a.sec = b.sec) && decide (a.usec < b.usec))

/-- SteeringState lists the six states of the STEERING state machine. -/
inductive SteeringState
  | idle
  | confirming
  | associating
  | associated
  | rejecting
  | rejected
deriving DecidableEq

/-- SteeringEvent lists the eight events of the STEERING state machine. -/
inductive SteeringEvent
  | eAssociated
  | eDisassociated
  | ePeerIsWorse
  | ePeerNotWorse
  | ePeerLostClient
  | eCloseClient
  | eClosedClient
  | eTimeout
deriving DecidableEq

/-- Mode mirrors the nsb mode enum: MODE_OFF, MODE_SUGGEST, MODE_FORCE. -/
inductive Mode
  | off
  | suggest
  | force
deriving DecidableEq

/-- Output records an externally visible effect of a transition action:
an emitted frame kind or an actuator call. -/
inductive Output
  | closeFrame
  | closedFrame
  | scoreFrame
  | blacklistAdd
  | blacklistRemove
  | bssTmReq
  | disassocReq
deriving DecidableEq

/-- Client models struct net_steering_client: the state, the u16 score,
presence of the sta handle, the BSS-Transition capability bit of the sta,
the remote/close bssids, the remote channel, the two timestamps, and one
armed flag per eloop timer registered with this client as its data. -/
structure Client where
  state : SteeringState
  score : Nat
  sta : Bool
  bssTm : Bool
  remoteBssid : Mac
  remoteTime : OsTime
  closeBssid : Mac
  remoteChannel : Nat
  associationTime : OsTime
  floodTimer : Bool
  clientTimer : Bool
  probeTimer : Bool
deriving DecidableEq

/-- client_create mirrors client_create: a zeroed entry with
state STEERING_IDLE and score set to max_score; no timer is registered. -/
def client_create : Client :=
  { state := SteeringState.idle
    score := max_score
    sta := false
    bssTm := false
    remoteBssid := zeroMac
    remoteTime := ⟨0, 0⟩
    closeBssid := zeroMac
    remoteChannel := 0
    associationTime := ⟨0, 0⟩
    floodTimer := false
    clientTimer := false
    probeTimer := false }

/-- start_flood_timer registers the flood_score timeout. -/
def start_flood_timer (c : Client) : Client := { c with floodTimer := true }

/-- stop_flood_timer mirrors stop_flood_timer: it resets the score to
max_score and cancels the flood_score timeout. -/
def stop_flood_timer (c : Client) : Client :=
  { c with score := max_score, floodTimer := false }

/-- client_start_timer registers the client_timeout (state-timeout). -/
def client_start_timer (c : Client) : Client := { c with clientTimer := true }

/-- client_stop_timer cancels the client_timeout. -/
def client_stop_timer (c : Client) : Client := { c with clientTimer := false }

/-- client_start_probe_timer registers the probe_timeout. -/
def client_start_probe_timer (c : Client) : Client := { c with probeTimer := true }

/-- client_stop_probe_timer cancels the probe_timeout. -/
def client_stop_probe_timer (c : Client) : Client := { c with probeTimer := false }

/-- client_is_associated mirrors client_is_associated: the sta pointer is
set and the state is STEERING_ASSOCIATED. -/
def client_is_associated (c : Client) : Bool :=
  c.sta && decide (c.state = SteeringState.associated)

/-- client_update_remote copies the bssid and the adjusted time into the
entry. -/
def client_update_remote (c : Client) (bssid : Mac) (t : OsTime) : Client :=
  { c with remoteBssid := bssid, remoteTime := t }

/-- client_associate mirrors client_associate: links the sta handle and
cancels the probe timer. -/
def client_associate (c : Client) : Client :=
  client_stop_probe_timer { c with sta := true }

/-- compute_score mirrors compute_score: `(u16) abs(rssi)`, i.e. the
absolute value truncated to 16 bits. -/
def compute_score (rssi : Int) : Nat := rssi.natAbs % 65536

/-- do_client_blacklist_add mirrors do_client_blacklist_add: the blacklist
actuator is called only when the mode is MODE_FORCE. -/
def do_client_blacklist_add (m : Mode) : List Output :=
  if m = Mode.force then [Output.blacklistAdd] else []

/-- do_client_blacklist_rm mirrors do_client_blacklist_rm: the blacklist
actuator is called only when the mode is MODE_FORCE. -/
def do_client_blacklist_rm (m : Mode) : List Output :=
  if m = Mode.force then [Output.blacklistRemove] else []

/-- do_client_disassociate mirrors do_client_disassociate: when the
client is associated it either sends a BSS transition request (in
MODE_SUGGEST, or when the sta advertises the capability) or a raw
disassociate; otherwise it only logs. -/
def do_client_disassociate (m : Mode) (c : Client) : List Output :=
  if client_is_associated c then
    if m = Mode.suggest ∨ c.bssTm = true then [Output.bssTmReq]
    else [Output.disassocReq]
  else []

/-- do_flood_score_out models the emission decision of do_flood_score:
nothing is sent while the score is max_score, otherwise one SCORE frame. -/
def do_flood_score_out (c : Client) : List Output :=
  if c.score = max_score then [] else [Output.scoreFrame]

/-- flood_closed_client_act records the client mutation done by
flood_closed_client besides emitting the frame: it clears close_bssid. -/
def flood_closed_client_act (c : Client) : Client :=
  { c with closeBssid := zeroMac }

/-- smDoEvent mirrors sm_STEERING_do_Event: the transition table of the
STEERING machine.  Each case performs the transition action of its
SM_EVENT body (in source order) and then enters the target state; an
unmatched state/event pair is a no-op.  Returns the new client and the
list of externally visible outputs of the action. -/
def smDoEvent (m : Mode) (c : Client) (e : SteeringEvent) : Client × List Output :=
  match c.state, e with
  | SteeringState.idle, SteeringEvent.eAssociated =>
      ({ start_flood_timer c with state := SteeringState.associated }, [])
  | SteeringState.idle, SteeringEvent.ePeerIsWorse =>
      ({ c with state := SteeringState.confirming }, [Output.closeFrame])
  | SteeringState.idle, SteeringEvent.ePeerNotWorse =>
      ({ client_start_timer c with state := SteeringState.rejected },
        do_client_blacklist_add m)
  | SteeringState.idle, SteeringEvent.ePeerLostClient =>
      ({ c with state := SteeringState.associating }, [])
  | SteeringState.idle, SteeringEvent.eCloseClient =>
      ({ client_start_timer c with state := SteeringState.rejected },
        [Output.closeFrame] ++ do_client_blacklist_add m)
  | SteeringState.confirming, SteeringEvent.eClosedClient =>
      ({ c with state := SteeringState.associating }, [])
  | SteeringState.confirming, SteeringEvent.eAssociated =>
      ({ start_flood_timer c with state := SteeringState.associated }, [])
  | SteeringState.confirming, SteeringEvent.eTimeout =>
      ({ c with state := SteeringState.idle }, [])
  | SteeringState.confirming, SteeringEvent.ePeerIsWorse =>
      ({ c with state := SteeringState.confirming }, [Output.closeFrame])
  | SteeringState.associating, SteeringEvent.eAssociated =>
      ({ start_flood_timer c with state := SteeringState.associated }, [])
  | SteeringState.associating, SteeringEvent.eDisassociated =>
      ({ c with state := SteeringState.idle }, [])
  | SteeringState.associating, SteeringEvent.ePeerIsWorse =>
      ({ c with state := SteeringState.associating }, [Output.closeFrame])
  | SteeringState.associating, SteeringEvent.eCloseClient =>
      ({ client_start_timer (flood_closed_client_act c) with
          state := SteeringState.rejected },
        [Output.closedFrame] ++ do_client_blacklist_add m)
  | SteeringState.associated, SteeringEvent.eCloseClient =>
      ({ stop_flood_timer (client_start_timer c) with
          state := SteeringState.rejecting },
        do_client_blacklist_add m ++ do_client_disassociate m c)
  | SteeringState.associated, SteeringEvent.eDisassociated =>
      ({ stop_flood_timer c with state := SteeringState.idle }, [])
  | SteeringState.associated, SteeringEvent.ePeerIsWorse =>
      ({ c with state := SteeringState.associated }, [Output.closeFrame])
  | SteeringState.rejecting, SteeringEvent.eDisassociated =>
      ({ client_start_timer (client_stop_timer (flood_closed_client_act c)) with
          state := SteeringState.rejected },
        [Output.closedFrame])
  | SteeringState.rejecting, SteeringEvent.ePeerIsWorse =>
      ({ client_stop_timer c with state := SteeringState.confirming },
        do_client_blacklist_rm m ++ [Output.closeFrame])
  | SteeringState.rejecting, SteeringEvent.ePeerLostClient =>
      ({ client_stop_timer c with state := SteeringState.confirming },
        do_client_blacklist_rm m)
  | SteeringState.rejecting, SteeringEvent.eTimeout =>
      ({ client_stop_timer c with state := SteeringState.associating },
        do_client_blacklist_rm m)
  | SteeringState.rejected, SteeringEvent.ePeerIsWorse =>
      ({ client_stop_timer c with state := SteeringState.confirming },
        do_client_blacklist_rm m ++ [Output.closeFrame])
  | SteeringState.rejected, SteeringEvent.ePeerLostClient =>
      ({ client_stop_timer c with state := SteeringState.confirming },
        do_client_blacklist_rm m ++ [Output.closeFrame])
  | SteeringState.rejected, SteeringEvent.eCloseClient =>
      ({ c with state := SteeringState.rejected }, [Output.closeFrame])
  | SteeringState.rejected, SteeringEvent.eTimeout =>
      ({ client_stop_timer c with state := SteeringState.associating },
        do_client_blacklist_rm m)
  | _, _ => (c, [])

/-- runEvents dispatches a sequence of events to one client's machine,
accumulating the outputs in program order. -/
def runEvents (m : Mode) : Client → List SteeringEvent → Client × List Output
  | c, [] => (c, [])
  | c, e :: es =>
      ((runEvents m (smDoEvent m c e).1 es).1,
        (smDoEvent m c e).2 ++ (runEvents m (smDoEvent m c e).1 es).2)

/-- client_disassociate mirrors client_disassociate: dispatch
E_DISASSOCIATED first, then clear the sta handle, the remote bookkeeping
and the association time, and arm the probe timer. -/
def client_disassociate (m : Mode) (c : Client) : Client × List Output :=
  (client_start_probe_timer
      { (smDoEvent m c SteeringEvent.eDisassociated).1 with
          sta := false
          remoteBssid := zeroMac
          remoteTime := ⟨0, 0⟩
          associationTime := ⟨0, 0⟩ },
    (smDoEvent m c SteeringEvent.eDisassociated).2)

/-- compare_scores mirrors compare_scores: dispatch E_PEER_IS_WORSE when
the local score is strictly smaller than the received one, otherwise
E_PEER_NOT_WORSE.  The middle component records the dispatched event. -/
def compare_scores (m : Mode) (c : Client) (score : Nat) :
    Client × List SteeringEvent × List Output :=
  if c.score < score then
    ((smDoEvent m c SteeringEvent.ePeerIsWorse).1,
      [SteeringEvent.ePeerIsWorse],
      (smDoEvent m c SteeringEvent.ePeerIsWorse).2)
  else
    ((smDoEvent m c SteeringEvent.ePeerNotWorse).1,
      [SteeringEvent.ePeerNotWorse],
      (smDoEvent m c SteeringEvent.ePeerNotWorse).2)

/-- adjusted_time computes the local_t of receive_score: the local clock
reading now, corrected backwards by the association age carried in the
TLV (association_t built from msecs as seconds and microseconds). -/
def adjusted_time (msecs : Nat) (now : OsTime) : OsTime :=
  os_time_sub now
    ⟨((msecs / 1000 : Nat) : Int), (((msecs % 1000) * 1000 : Nat) : Int)⟩

/-- receive_score mirrors the per-client body of receive_score (the
entry already looked up or freshly created): owner arbitration by
adjusted time, then either a dispatched E_DISASSOCIATED (when locally
associated) or a score comparison.  The middle component records the
events dispatched to the state machine. -/
def receive_score (m : Mode) (c : Client) (bssid : Mac)
    (score : Nat) (msecs : Nat) (now : OsTime) :
    Client × List SteeringEvent × List Output :=
  if bssid ≠ c.remoteBssid then
    if os_time_before c.remoteTime (adjusted_time msecs now) then
      if client_is_associated c then
        (client_update_remote (client_disassociate m c).1 bssid (adjusted_time msecs now),
          [SteeringEvent.eDisassociated],
          (client_disassociate m c).2)
      else
        compare_scores m (client_update_remote c bssid (adjusted_time msecs now)) score
    else (c, [], [])
  else compare_scores m c score

/-- probe_update mirrors the per-client body of probe_req_cb: recompute
the score, flood immediately on a change while associated, and re-arm the
probe timer (a stop followed by a start) while not associated. -/
def probe_update (c : Client) (rssi : Int) : Client × List Output :=
  if compute_score rssi ≠ c.score then
    if client_is_associated { c with score := compute_score rssi } then
      ({ c with score := compute_score rssi },
        do_flood_score_out { c with score := compute_score rssi })
    else
      (client_start_probe_timer
        (client_stop_probe_timer { c with score := compute_score rssi }), [])
  else
    if client_is_associated c then (c, [])
    else (client_start_probe_timer (client_stop_probe_timer c), [])

/-- probe_fresh is probe_req_cb on a client entry freshly created for a
probe directed at the local bssid. -/
def probe_fresh (rssi : Int) : Client × List Output :=
  probe_update client_create rssi

/-- association_fresh mirrors net_steering_association on a freshly
created entry: clear the remote bookkeeping, record the association
time, compute the score, link the sta (cancelling the probe timer),
flood the score, and dispatch E_ASSOCIATED. -/
def association_fresh (m : Mode) (rssi : Int) (now : OsTime) (cap : Bool) :
    Client × List Output :=
  let c0 := { client_create with
      remoteTime := (⟨0, 0⟩ : OsTime)
      remoteBssid := zeroMac
      associationTime := now
      score := compute_score rssi
      bssTm := cap }
  let c1 := client_associate c0
  ((smDoEvent m c1 SteeringEvent.eAssociated).1,
    do_flood_score_out c1 ++ (smDoEvent m c1 SteeringEvent.eAssociated).2)

/-- be16 gives the two big-endian bytes of a 16-bit value (htons). -/
def be16 (n : Nat) : List Nat := [n / 256 % 256, n % 256]

/-- be32 gives the four big-endian bytes of a 32-bit value (htonl). -/
def be32 (n : Nat) : List Nat :=
  [n / 16777216 % 256, n / 65536 % 256, n / 256 % 256, n % 256]

/-- put_tlv_header mirrors put_tlv_header: one type byte, one length byte. -/
def put_tlv_header (ty len : Nat) : List Nat := [ty, len]

/-- put_score mirrors put_score: TLV_SCORE (type 0, length 18) carrying
sta, bssid, the score (big-endian 16-bit) and the association
milliseconds (big-endian 32-bit). -/
def put_score (sta bssid : Mac) (score msecs : Nat) : List Nat :=
  put_tlv_header 0 18 ++ sta.bytes ++ bssid.bytes ++ be16 score ++ be32 msecs

/-- put_close_client mirrors put_close_client: TLV_CLOSE_CLIENT (type 1,
length 19) carrying sta, bssid, remote_bssid and the channel byte. -/
def put_close_client (sta bssid remote : Mac) (channel : Nat) : List Nat :=
  put_tlv_header 1 19 ++ sta.bytes ++ bssid.bytes ++ remote.bytes ++ [channel % 256]

/-- put_closed_client mirrors put_closed_client: TLV_CLOSED_CLIENT
(type 2, length 12) carrying sta and bssid. -/
def put_closed_client (sta bssid : Mac) : List Nat :=
  put_tlv_header 2 12 ++ sta.bytes ++ bssid.bytes

/-- header_put mirrors header_put: magic 0x30, version 1, a zero length
placeholder, and the big-endian serial number. -/
def header_put (sn : Nat) : List Nat := [48, 1] ++ [0, 0] ++ be16 sn

/-- header_finalize mirrors header_finalize: overwrite bytes 2 and 3 with
the big-endian total buffer length (htons of wpabuf_len). -/
def header_finalize (buf : List Nat) : List Nat :=
  match buf with
  | m :: v :: _ :: _ :: rest => m :: v :: (be16 (buf.length % 65536) ++ rest)
  | other => other

/-- flood_closed_client_frame mirrors the buffer built by
flood_closed_client: a header followed by one CLOSED_CLIENT TLV whose
fields are client_get_mac and client_get_local_bssid. -/
def flood_closed_client_frame (clientMac localBssid : Mac) (sn : Nat) : List Nat :=
  header_finalize (header_put sn ++ put_closed_client clientMac localBssid)

/-- flood_close_client_frame mirrors the buffer built by
flood_close_client: a header followed by one CLOSE_CLIENT TLV whose
fields are client_get_mac, client_get_local_bssid,
client_get_remote_bssid and the local channel. -/
def flood_close_client_frame (clientMac localBssid remoteBssid : Mac)
    (channel sn : Nat) : List Nat :=
  header_finalize (header_put sn ++ put_close_client clientMac localBssid remoteBssid channel)

/-- do_flood_score_frame mirrors the buffer built by do_flood_score when
the score is not max_score: a header followed by one SCORE TLV. -/
def do_flood_score_frame (clientMac localBssid : Mac) (score msecs sn : Nat) : List Nat :=
  header_finalize (header_put sn ++ put_score clientMac localBssid score msecs)

/-- parse_score mirrors parse_score: fails when the declared length is
below 18, otherwise reads two 6-byte MACs, a big-endian u16 and a
big-endian u32.  Reading past the end of the physical buffer (undefined
behaviour in the C source) is modelled as failure. -/
def parse_score (buf : List Nat) (len : Nat) : Option (Mac × Mac × Nat × Nat) :=
  if len < 18 then none else
  match buf with
  | a0 :: a1 :: a2 :: a3 :: a4 :: a5 ::
    b0 :: b1 :: b2 :: b3 :: b4 :: b5 ::
    s0 :: s1 :: m0 :: m1 :: m2 :: m3 :: _ =>
      some (⟨a0, a1, a2, a3, a4, a5⟩, ⟨b0, b1, b2, b3, b4, b5⟩,
        s0 * 256 + s1, ((m0 * 256 + m1) * 256 + m2) * 256 + m3)
  | _ => none

/-- parse_close_client mirrors parse_close_client: fails when the
declared length is below 19, otherwise reads three 6-byte MACs and one
channel byte. -/
def parse_close_client (buf : List Nat) (len : Nat) :
    Option (Mac × Mac × Mac × Nat) :=
  if len < 19 then none else
  match buf with
  | a0 :: a1 :: a2 :: a3 :: a4 :: a5 ::
    b0 :: b1 :: b2 :: b3 :: b4 :: b5 ::
    t0 :: t1 :: t2 :: t3 :: t4 :: t5 :: ch :: _ =>
      some (⟨a0, a1, a2, a3, a4, a5⟩, ⟨b0, b1, b2, b3, b4, b5⟩,
        ⟨t0, t1, t2, t3, t4, t5⟩, ch)
  | _ => none

/-- parse_closed_client mirrors parse_closed_client: fails when the
declared length is below 12, otherwise reads two 6-byte MACs. -/
def parse_closed_client (buf : List Nat) (len : Nat) : Option (Mac × Mac) :=
  if len < 12 then none else
  match buf with
  | a0 :: a1 :: a2 :: a3 :: a4 :: a5 ::
    b0 :: b1 :: b2 :: b3 :: b4 :: b5 :: _ =>
      some (⟨a0, a1, a2, a3, a4, a5⟩, ⟨b0, b1, b2, b3, b4, b5⟩)
  | _ => none

/-- be16At reads a big-endian u16 at a byte offset (used by the header
parser, which ntohs-decodes in place). -/
def be16At (buf : List Nat) (i : Nat) : Nat :=
  buf.getD i 0 * 256 + buf.getD (i + 1) 0

/-- Dispatch records one TLV handed to its handler by the receive loop. -/
inductive Dispatch
  | score (sta bssid : Mac) (sc msecs : Nat)
  | closeClient (sta bssid target : Mac) (chan : Nat)
  | closedClient (sta target : Mac)
deriving DecidableEq

/-- tlvLoop mirrors the TLV while-loop of receive: walk the buffer up to
packet_len, parse each TLV header (giving up, with the dispatches so
far, when fewer than two bytes remain or a known-type payload is
truncated), dispatch known types, and skip unknown types by their
declared length.  The fuel argument only bounds the iteration count;
each iteration consumes at least two bytes, so fuel equal to packet_len
never runs out first. -/
def tlvLoop (buf : List Nat) (packetLen : Nat) :
    Nat → Nat → List Dispatch → List Dispatch
  | 0, _, acc => acc
  | fuel + 1, pos, acc =>
      if pos < packetLen then
        if packetLen - pos < 2 then acc
        else
          let ty := buf.getD pos 0
          let tlvLen := buf.getD (pos + 1) 0
          let body := pos + 2
          if ty = 0 then
            match parse_score (buf.drop body) tlvLen with
            | none => acc
            | some (sta, bssid, sc, ms) =>
                tlvLoop buf packetLen fuel (body + 18)
                  (acc ++ [Dispatch.score sta bssid sc ms])
          else if ty = 1 then
            match parse_close_client (buf.drop body) tlvLen with
            | none => acc
            | some (sta, bssid, target, ch) =>
                tlvLoop buf packetLen fuel (body + 19)
                  (acc ++ [Dispatch.closeClient sta bssid target ch])
          else if ty = 2 then
            match parse_closed_client (buf.drop body) tlvLen with
            | none => acc
            | some (sta, target) =>
                tlvLoop buf packetLen fuel (body + 12)
                  (acc ++ [Dispatch.closedClient sta target])
          else
            tlvLoop buf packetLen fuel (body + tlvLen) acc
      else acc

/-- receiveFrame mirrors the frame-level checks of receive: drop (none)
when the header is shorter than six bytes, when the received length is
below the declared packet length, or when the version or the magic
differs from the local constants; otherwise run the TLV loop. -/
def receiveFrame (buf : List Nat) : Option (List Dispatch) :=
  if buf.length < 6 then none
  else if buf.length < be16At buf 2 then none
  else if buf.getD 1 0 ≠ 1 ∨ buf.getD 0 0 ≠ 48 then none
  else some (tlvLoop buf (be16At buf 2) (be16At buf 2) 6 [])

/-- receive_closed_client_dispatches mirrors the guard of
receive_closed_client: E_CLOSED_CLIENT is dispatched exactly when the
local bssid equals the target field of the TLV and the client is found. -/
def receive_closed_client_dispatches (ownBssid target : Mac)
    (clientFound : Bool) : Bool :=
  decide (ownBssid = target) && clientFound

/-- clientAssociatedSample is a concrete locally-associated entry with a
local score of 40 and no remote owner recorded yet. -/
def clientAssociatedSample : Client :=
  { state := SteeringState.associated
    score := 40
    sta := true
    bssTm := false
    remoteBssid := zeroMac
    remoteTime := ⟨0, 0⟩
    closeBssid := zeroMac
    remoteChannel := 0
    associationTime := ⟨5, 0⟩
    floodTimer := true
    clientTimer := false
    probeTimer := false }

/-- C1 (code bug): flood_closed_client writes the sender's own local
bssid, never close_bssid, into the acknowledging field of the
CLOSED_CLIENT TLV (first conjunct, for every client MAC, local bssid and
serial).  Consequently, when AP 01:01:01:01:01:01 acknowledges a CLOSE
received from close_bssid 02:02:02:02:02:02, the emitted frame parses at
the requester with target 01:01:01:01:01:01 (second conjunct), and the
requester's receive_closed_client comparison against its own bssid fails,
so E_CLOSED_CLIENT is never dispatched (third conjunct), contrary to the
claimed handshake. -/
theorem c1_closed_client_ack_is_local_bssid :
    (∀ (clientMac localBssid : Mac) (sn : Nat),
      flood_closed_client_frame clientMac localBssid sn =
        [48, 1, 0, 20, sn / 256 % 256, sn % 256, 2, 12] ++
          clientMac.bytes ++ localBssid.bytes) ∧
    receiveFrame (flood_closed_client_frame ⟨10, 11, 12, 13, 14, 15⟩ ⟨1, 1, 1, 1, 1, 1⟩ 0) =
      some [Dispatch.closedClient ⟨10, 11, 12, 13, 14, 15⟩ ⟨1, 1, 1, 1, 1, 1⟩] ∧
    receive_closed_client_dispatches ⟨2, 2, 2, 2, 2, 2⟩ ⟨1, 1, 1, 1, 1, 1⟩ true = false := by
  refine ⟨fun clientMac localBssid sn => ?_, by decide, by decide⟩
  simp [flood_closed_client_frame, header_finalize, header_put, put_closed_client,
    put_tlv_header, be16, Mac.bytes]

/-- C2 (code bug): for a received score of 0xFFFF the score-comparison
step emits E_PEER_IS_WORSE when the local score is smaller (here 40),
and in general compare_scores never dispatches E_PEER_LOST_CLIENT for
any mode, client and received score. -/
theorem c2_score_ffff_not_peer_lost :
    (compare_scores Mode.force clientAssociatedSample 65535).2.1 =
      [SteeringEvent.ePeerIsWorse] ∧
    ∀ (m : Mode) (c : Client) (s : Nat),
      SteeringEvent.ePeerLostClient ∉ (compare_scores m c s).2.1 := by
  refine ⟨by decide, fun m c s => ?_⟩
  unfold compare_scores
  split <;> simp

/-- C4 counterexample: the frame 30 00 00 06 00 00 is well formed (magic
0x30, length 6 matching the declared total length) and carries version 0,
which is below the local version 1, yet receive drops it. -/
theorem c4_version0_dropped_cex :
    receiveFrame [48, 0, 0, 6, 0, 0] = none ∧
    [48, 0, 0, 6, 0, 0].getD 0 0 = 48 ∧
    [48, 0, 0, 6, 0, 0].getD 1 0 ≤ 1 ∧
    be16At [48, 0, 0, 6, 0, 0] 2 ≤ [48, 0, 0, 6, 0, 0].length := by
  decide

/-- C4 amended: receive drops a frame exactly when the header is
truncated (fewer than six bytes), the declared total length exceeds the
received buffer, the version differs from the local version in either
direction, or the magic mismatches. -/
theorem c4_drop_condition_amended (buf : List Nat) :
    receiveFrame buf = none ↔
      (buf.length < 6 ∨ buf.length < be16At buf 2 ∨
        buf.getD 1 0 ≠ 1 ∨ buf.getD 0 0 ≠ 48) := by
  unfold receiveFrame
  split_ifs with h1 h2 h3 <;> simp_all

/-- C5 counterexample: the CLOSED_CLIENT frame is 20 bytes long and its
total_length field holds 20, the length of the entire frame, not 18, the
length minus the first two bytes. -/
theorem c5_total_length_cex :
    be16At (flood_closed_client_frame ⟨10, 11, 12, 13, 14, 15⟩ ⟨1, 1, 1, 1, 1, 1⟩ 0) 2 = 20 ∧
    (flood_closed_client_frame ⟨10, 11, 12, 13, 14, 15⟩ ⟨1, 1, 1, 1, 1, 1⟩ 0).length = 20 ∧
    be16At (flood_closed_client_frame ⟨10, 11, 12, 13, 14, 15⟩ ⟨1, 1, 1, 1, 1, 1⟩ 0) 2 ≠
      (flood_closed_client_frame ⟨10, 11, 12, 13, 14, 15⟩ ⟨1, 1, 1, 1, 1, 1⟩ 0).length - 2 := by
  decide

/-- C5 amended: for every frame the writer emits (SCORE, CLOSE_CLIENT or
CLOSED_CLIENT flood), the 16-bit total_length field written at offset 2
equals the byte length of the entire frame, header included. -/
theorem c5_total_length_amended
    (clientMac localBssid remoteBssid : Mac) (score msecs channel sn : Nat) :
    be16At (do_flood_score_frame clientMac localBssid score msecs sn) 2 =
      (do_flood_score_frame clientMac localBssid score msecs sn).length ∧
    be16At (flood_close_client_frame clientMac localBssid remoteBssid channel sn) 2 =
      (flood_close_client_frame clientMac localBssid remoteBssid channel sn).length ∧
    be16At (flood_closed_client_frame clientMac localBssid sn) 2 =
      (flood_closed_client_frame clientMac localBssid sn).length := by
  refine ⟨?_, ?_, ?_⟩ <;>
    simp [do_flood_score_frame, flood_close_client_frame, flood_closed_client_frame,
      header_finalize, header_put, put_score, put_close_client, put_closed_client,
      put_tlv_header, be16, be32, be16At, Mac.bytes]

/-- C7 counterexample: compute_score truncates rather than saturates:
for rssi equal to minus 65536 the computed score is 0, not the claimed
16-bit maximum 0xFFFF. -/
theorem c7_compute_score_truncates_cex :
    compute_score (-65536) = 0 ∧ compute_score (-65536) ≠ 65535 := by
  decide

/-- C7 amended: the computed local score is the absolute value of rssi
reduced modulo 2^16 (a truncating cast), which agrees with the absolute
value whenever it already fits in 16 bits. -/
theorem c7_compute_score_amended (rssi : Int) (h : rssi.natAbs ≤ 65535) :
    compute_score rssi = rssi.natAbs ∧ compute_score rssi ≤ 65535 := by
  unfold compute_score
  omega

/-- C7 witness: at rssi minus 40 the amended statement evaluates: the
score is 40. -/
theorem c7_compute_score_amended_witness :
    compute_score (-40) = (-40 : Int).natAbs ∧ compute_score (-40) ≤ 65535 :=
  c7_compute_score_amended (-40) (by decide)

/-- C3 counterexample: a locally associated client with no recorded
remote owner receives a SCORE from 02:02:02:02:02:02 (score 30, newer
adjusted time); the engine dispatches only E_DISASSOCIATED and performs
no score comparison: neither E_PEER_IS_WORSE nor E_PEER_NOT_WORSE is
emitted, contrary to the claim. -/
theorem c3_no_compare_after_disassociate_cex :
    (receive_score Mode.force clientAssociatedSample ⟨2, 2, 2, 2, 2, 2⟩ 30 1000 ⟨100, 0⟩).2.1 =
      [SteeringEvent.eDisassociated] ∧
    SteeringEvent.ePeerIsWorse ∉
      (receive_score Mode.force clientAssociatedSample ⟨2, 2, 2, 2, 2, 2⟩ 30 1000 ⟨100, 0⟩).2.1 ∧
    SteeringEvent.ePeerNotWorse ∉
      (receive_score Mode.force clientAssociatedSample ⟨2, 2, 2, 2, 2, 2⟩ 30 1000 ⟨100, 0⟩).2.1 := by
  decide

/-- C3 amended: when a SCORE arrives from a bssid different from
entry.remote_bssid with an adjusted time strictly later than
entry.remote_time while the client is locally associated, the engine
dispatches only E_DISASSOCIATED (dropping the state to Idle) and updates
the remote owner; it performs no score comparison for the received
score. -/
theorem c3_associated_roam_amended (m : Mode) (c : Client) (bssid : Mac)
    (score msecs : Nat) (now : OsTime)
    (hb : bssid ≠ c.remoteBssid)
    (ht : os_time_before c.remoteTime (adjusted_time msecs now) = true)
    (ha : client_is_associated c = true) :
    (receive_score m c bssid score msecs now).2.1 = [SteeringEvent.eDisassociated] ∧
    (receive_score m c bssid score msecs now).1.state = SteeringState.idle ∧
    (receive_score m c bssid score msecs now).1.remoteBssid = bssid := by
  have hsta : c.sta = true := by
    simp [client_is_associated] at ha
    exact ha.1
  have hst : c.state = SteeringState.associated := by
    simp [client_is_associated] at ha
    exact ha.2
  unfold receive_score
  rw [if_pos hb, if_pos ht, if_pos ha]
  unfold client_disassociate client_update_remote
  refine ⟨rfl, ?_, rfl⟩
  obtain ⟨st, sc, sta, btm, rb, rt, cb, rc, at_, ft, ct, pt⟩ := c
  simp only at hst
  subst hst
  simp [smDoEvent, stop_flood_timer, client_start_probe_timer]

/-- C3 witness: the amended statement evaluated on the concrete roam
scenario of the counterexample. -/
theorem c3_associated_roam_amended_witness :
    (receive_score Mode.force clientAssociatedSample ⟨2, 2, 2, 2, 2, 2⟩ 30 1000 ⟨100, 0⟩).2.1 =
      [SteeringEvent.eDisassociated] ∧
    (receive_score Mode.force clientAssociatedSample ⟨2, 2, 2, 2, 2, 2⟩ 30 1000 ⟨100, 0⟩).1.state =
      SteeringState.idle ∧
    (receive_score Mode.force clientAssociatedSample ⟨2, 2, 2, 2, 2, 2⟩ 30 1000 ⟨100, 0⟩).1.remoteBssid =
      ⟨2, 2, 2, 2, 2, 2⟩ :=
  c3_associated_roam_amended Mode.force clientAssociatedSample ⟨2, 2, 2, 2, 2, 2⟩ 30 1000 ⟨100, 0⟩
    (by decide) (by decide) (by decide)

/-- C6 counterexample: an entry freshly created by a received SCORE TLV
(here from 02:02:02:02:02:02 with score 30) ends the event with no sta
handle and with the probe-loss timer not armed, falsifying the claimed
iff between the two. -/
theorem c6_score_created_probe_timer_cex :
    (receive_score Mode.force client_create ⟨2, 2, 2, 2, 2, 2⟩ 30 1000 ⟨100, 0⟩).1.sta = false ∧
    (receive_score Mode.force client_create ⟨2, 2, 2, 2, 2, 2⟩ 30 1000 ⟨100, 0⟩).1.probeTimer = false := by
  decide

/-- C6 amended: an entry freshly created by a probe ends with the
probe-loss timer armed and no sta handle, and one freshly created by a
local association ends with the timer unarmed and the sta handle
present, so the armed-iff-absent invariant holds on those paths; but an
entry freshly created by a received SCORE ends with the sta handle
absent and the probe-loss timer not armed. -/
theorem c6_fresh_entry_probe_timer_amended :
    (∀ rssi : Int,
      (probe_fresh rssi).1.probeTimer = true ∧ (probe_fresh rssi).1.sta = false) ∧
    (∀ (m : Mode) (rssi : Int) (now : OsTime) (cap : Bool),
      (association_fresh m rssi now cap).1.probeTimer = false ∧
      (association_fresh m rssi now cap).1.sta = true) ∧
    (∀ (m : Mode) (bssid : Mac) (score msecs : Nat) (now : OsTime),
      (receive_score m client_create bssid score msecs now).1.probeTimer = false ∧
      (receive_score m client_create bssid score msecs now).1.sta = false) := by
  refine ⟨fun rssi => ?_, fun m rssi now cap => ?_, fun m bssid score msecs now => ?_⟩
  · unfold probe_fresh probe_update
    split_ifs <;>
      simp_all [client_create, client_is_associated, client_start_probe_timer,
        client_stop_probe_timer]
  · unfold association_fresh client_associate
    simp [client_create, client_stop_probe_timer, smDoEvent, start_flood_timer]
  · unfold receive_score
    split_ifs with h1 h2 h3
    · simp [client_is_associated, client_create] at h3
    · unfold compare_scores client_update_remote
      split_ifs <;> simp [smDoEvent, client_create, client_start_timer]
    · simp [client_create]
    · unfold compare_scores
      split_ifs <;> simp [smDoEvent, client_create, client_start_timer]


/-- C8: encoding a TLV with the writer and re-parsing it yields exactly
the original fields, for each of the three TLV kinds (given the fields
fit their wire widths); and the SCORE TLV for the spec's concrete
example encodes big-endian exactly as specified. -/
theorem c8_tlv_roundtrip (sta bssid target : Mac) (score msecs channel : Nat)
    (hs : score < 65536) (hm : msecs < 4294967296) (hc : channel < 256) :
    parse_score ((put_score sta bssid score msecs).drop 2) 18 =
      some (sta, bssid, score, msecs) ∧
    parse_close_client ((put_close_client sta bssid target channel).drop 2) 19 =
      some (sta, bssid, target, channel) ∧
    parse_closed_client ((put_closed_client sta bssid).drop 2) 12 =
      some (sta, bssid) ∧
    put_score ⟨0xaa, 0xbb, 0xcc, 0xdd, 0xee, 0xff⟩ ⟨0x11, 0x22, 0x33, 0x44, 0x55, 0x66⟩
        0xA5 0x30D40 =
      [0x00, 0x12, 0xaa, 0xbb, 0xcc, 0xdd, 0xee, 0xff,
        0x11, 0x22, 0x33, 0x44, 0x55, 0x66, 0x00, 0xa5, 0x00, 0x03, 0x0d, 0x40] := by
  refine ⟨?_, ?_, ?_, by decide⟩
  · simp [put_score, put_tlv_header, Mac.bytes, be16, be32, parse_score]
    omega
  · simp [put_close_client, put_tlv_header, Mac.bytes, parse_close_client]
    omega
  · simp [put_closed_client, put_tlv_header, Mac.bytes, parse_closed_client]

/-- C8 witness: the round-trip instantiated at the spec's concrete SCORE
example fields and a concrete CLOSE/CLOSED fieldset. -/
theorem c8_tlv_roundtrip_witness :
    parse_score ((put_score ⟨0xaa, 0xbb, 0xcc, 0xdd, 0xee, 0xff⟩
        ⟨0x11, 0x22, 0x33, 0x44, 0x55, 0x66⟩ 0xA5 0x30D40).drop 2) 18 =
      some (⟨0xaa, 0xbb, 0xcc, 0xdd, 0xee, 0xff⟩,
        ⟨0x11, 0x22, 0x33, 0x44, 0x55, 0x66⟩, 0xA5, 0x30D40) ∧
    parse_close_client ((put_close_client ⟨0xaa, 0xbb, 0xcc, 0xdd, 0xee, 0xff⟩
        ⟨0x11, 0x22, 0x33, 0x44, 0x55, 0x66⟩ ⟨1, 1, 1, 1, 1, 1⟩ 11).drop 2) 19 =
      some (⟨0xaa, 0xbb, 0xcc, 0xdd, 0xee, 0xff⟩,
        ⟨0x11, 0x22, 0x33, 0x44, 0x55, 0x66⟩, ⟨1, 1, 1, 1, 1, 1⟩, 11) ∧
    parse_closed_client ((put_closed_client ⟨0xaa, 0xbb, 0xcc, 0xdd, 0xee, 0xff⟩
        ⟨0x11, 0x22, 0x33, 0x44, 0x55, 0x66⟩).drop 2) 12 =
      some (⟨0xaa, 0xbb, 0xcc, 0xdd, 0xee, 0xff⟩, ⟨0x11, 0x22, 0x33, 0x44, 0x55, 0x66⟩) ∧
    put_score ⟨0xaa, 0xbb, 0xcc, 0xdd, 0xee, 0xff⟩ ⟨0x11, 0x22, 0x33, 0x44, 0x55, 0x66⟩
        0xA5 0x30D40 =
      [0x00, 0x12, 0xaa, 0xbb, 0xcc, 0xdd, 0xee, 0xff,
        0x11, 0x22, 0x33, 0x44, 0x55, 0x66, 0x00, 0xa5, 0x00, 0x03, 0x0d, 0x40] :=
  c8_tlv_roundtrip ⟨0xaa, 0xbb, 0xcc, 0xdd, 0xee, 0xff⟩ ⟨0x11, 0x22, 0x33, 0x44, 0x55, 0x66⟩
    ⟨1, 1, 1, 1, 1, 1⟩ 0xA5 0x30D40 11 (by decide) (by decide) (by decide)

/-- Helper: a single transition never produces a blacklist actuator call
outside Force mode, since both do_client_blacklist helpers are guarded by
the mode check. -/
theorem smDoEvent_no_blacklist (m : Mode) (c : Client) (e : SteeringEvent)
    (h : m ≠ Mode.force) :
    Output.blacklistAdd ∉ (smDoEvent m c e).2 ∧
    Output.blacklistRemove ∉ (smDoEvent m c e).2 := by
  obtain ⟨st, sc, sta, btm, rb, rt, cb, rc, at_, ft, ct, pt⟩ := c
  cases st <;> cases e <;>
    simp [smDoEvent, do_client_blacklist_add, do_client_blacklist_rm,
      do_client_disassociate, client_is_associated, h] <;>
    split_ifs <;> simp

/-- C9: for every sequence of events dispatched to a client's state
machine, no blacklist_add or blacklist_remove actuator call occurs unless
the context mode is Force. -/
theorem c9_no_blacklist_outside_force (m : Mode) (c : Client)
    (events : List SteeringEvent) (h : m ≠ Mode.force) :
    Output.blacklistAdd ∉ (runEvents m c events).2 ∧
    Output.blacklistRemove ∉ (runEvents m c events).2 := by
  induction events generalizing c with
  | nil => simp [runEvents]
  | cons e es ih =>
      have hstep := smDoEvent_no_blacklist m c e h
      have htail := ih (smDoEvent m c e).1
      simp only [runEvents, List.mem_append]
      constructor
      · intro hmem
        rcases hmem with hmem | hmem
        · exact hstep.1 hmem
        · exact htail.1 hmem
      · intro hmem
        rcases hmem with hmem | hmem
        · exact hstep.2 hmem
        · exact htail.2 hmem

/-- C9 witness: in Suggest mode, a CLOSE followed by a disassociation and
a timeout on a fresh entry produces no blacklist call. -/
theorem c9_no_blacklist_outside_force_witness :
    Output.blacklistAdd ∉
      (runEvents Mode.suggest client_create
        [SteeringEvent.eCloseClient, SteeringEvent.eDisassociated,
          SteeringEvent.eTimeout]).2 ∧
    Output.blacklistRemove ∉
      (runEvents Mode.suggest client_create
        [SteeringEvent.eCloseClient, SteeringEvent.eDisassociated,
          SteeringEvent.eTimeout]).2 :=
  c9_no_blacklist_outside_force Mode.suggest client_create
    [SteeringEvent.eCloseClient, SteeringEvent.eDisassociated, SteeringEvent.eTimeout]
    (by decide)

/-- C10: immediately after either transition that leaves Associated
(E_DISASSOCIATED to Idle, or E_CLOSE_CLIENT to Rejecting), the client's
local score is the sentinel max_score, because stop_flood_timer resets
it; consequently do_flood_score emits nothing for that client. -/
theorem c10_leaving_associated_resets_score (m : Mode) (c : Client)
    (h : c.state = SteeringState.associated) :
    ((smDoEvent m c SteeringEvent.eDisassociated).1.score = max_score ∧
      do_flood_score_out (smDoEvent m c SteeringEvent.eDisassociated).1 = []) ∧
    ((smDoEvent m c SteeringEvent.eCloseClient).1.score = max_score ∧
      do_flood_score_out (smDoEvent m c SteeringEvent.eCloseClient).1 = []) := by
  obtain ⟨st, sc, sta, btm, rb, rt, cb, rc, at_, ft, ct, pt⟩ := c
  simp only at h
  subst h
  simp [smDoEvent, stop_flood_timer, client_start_timer, do_flood_score_out]

/-- C10 witness: the statement evaluated on the concrete associated
client with score 40. -/
theorem c10_leaving_associated_resets_score_witness :
    ((smDoEvent Mode.force clientAssociatedSample SteeringEvent.eDisassociated).1.score = max_score ∧
      do_flood_score_out (smDoEvent Mode.force clientAssociatedSample SteeringEvent.eDisassociated).1 = []) ∧
    ((smDoEvent Mode.force clientAssociatedSample SteeringEvent.eCloseClient).1.score = max_score ∧
      do_flood_score_out (smDoEvent Mode.force clientAssociatedSample SteeringEvent.eCloseClient).1 = []) :=
  c10_leaving_associated_resets_score Mode.force clientAssociatedSample (by decide)

end NetSteering
